import Mathlib

set_option linter.unusedVariables false

/-!
# Verification of the technoir-transmission-generator pipeline

Shallow embedding of the content-generation pipeline of the repository
(`src/services/gemini.ts` and the viewer handlers of the main app file).
Network transports and model responses are parameters (oracles); every
other step — credential check, stream accumulation, fence stripping,
prompt assembly, per-lead error containment, field-level merging — is
translated directly from the source.
-/

/-! ## Data model (`src/types.ts`) -/

/-- Category of a lead, the six fixed labels of `src/types.ts`. -/
inductive Category where
  | Connections
  | Events
  | Locations
  | Objects
  | Threats
  | Factions
deriving DecidableEq, Repr

/-- Rendering of a category label, as interpolated into prompt templates. -/
def categoryName : Category → String
  | .Connections => "Connections"
  | .Events => "Events"
  | .Locations => "Locations"
  | .Objects => "Objects"
  | .Threats => "Threats"
  | .Factions => "Factions"

/-- Sensory record of `LeadDetails` (`src/types.ts`). -/
structure Sensory where
  sight : String
  sound : String
  smell : String
  vibe : String
deriving DecidableEq, Repr

/-- Details (dossier) attached to a lead (`src/types.ts`). -/
structure LeadDetails where
  sensory : Sensory
  expandedDescription : String
  imageUrl : Option String := none
deriving DecidableEq, Repr

/-- A plot node (`src/types.ts`). -/
structure Lead where
  id : String
  name : String
  description : String
  category : Category
  details : Option LeadDetails := none
deriving DecidableEq, Repr

/-- Three-paragraph exposition block (`src/types.ts`). -/
structure Exposition where
  technology : String
  society : String
  environment : String
deriving DecidableEq, Repr

/-- The root generated artifact (`src/types.ts`). -/
structure Transmission where
  id : Nat
  createdAt : String
  title : String
  settingSummary : String
  exposition : Exposition
  headerImageUrl : Option String := none
  leads : List Lead
deriving DecidableEq, Repr

/-- Result shape of `generateTitleAndSetting` (`Pick<Transmission, 'title' | 'settingSummary'>`). -/
structure TitleSetting where
  title : String
  settingSummary : String
deriving DecidableEq, Repr

/-- Result shape of `generateLeadInspectionText`
(`Pick<LeadDetails, 'sensory' | 'expandedDescription'>`). -/
structure TextDetails where
  sensory : Sensory
  expandedDescription : String
deriving DecidableEq, Repr

/-! ## Errors

The spec's taxonomy (§7): `MissingCredential` is the error thrown by
`getAI` ("Requested entity was not found: Missing API Key"),
`malformedOutput` models a `JSON.parse` failure (carrying the cleaned
text), `transportFailure` a network/service rejection. -/

/-- Errors of the generation core. -/
inductive GeminiError where
  | missingCredential
  | malformedOutput (raw : String)
  | transportFailure (msg : String)
deriving DecidableEq, Repr

/-! ## Credential check (`gemini.ts` lines 6–17)

`localStorage.getItem('technoir_api_key')` is modelled as an
`Option String` parameter threaded into every call. -/

/-- Key retrieval (`getApiKey`): reads the single well-known local source. -/
def getApiKey (store : Option String) : Option String := store

/-- Client construction (`getAI`): throws when no key is resolvable, otherwise
returns the client (represented by its key). -/
def getAI (store : Option String) : Except GeminiError String :=
  match getApiKey store with
  | none => .error .missingCredential
  | some k => .ok k

/-! ## Fence stripping (`gemini.ts` line 42)

`fullText.replace(/```json\n?|```/g, '').trim()`: scanning left to
right, at each position the regex removes "```json" plus an optional
newline, or else a bare "```"; any other character is kept.  The
recursion is written with a fuel argument (the list length) so that it
is structural and computes by `rfl`/`decide`. -/

/-- After a "```" was consumed: remove an immediately following "json" tag
with its optional newline (the `json\n?` part of the regex alternative). -/
def dropJsonTag (l : List Char) : List Char :=
  if l.take 5 = ['j', 's', 'o', 'n', '\n'] then l.drop 5
  else if l.take 4 = ['j', 's', 'o', 'n'] then l.drop 4
  else l

/-- Fueled worker for the fence-strip scan. -/
def stripFencesF : Nat → List Char → List Char
  | 0, l => l
  | _ + 1, [] => []
  | fuel + 1, c :: rest =>
    if (c :: rest).take 3 = ['`', '`', '`'] then
      stripFencesF fuel (dropJsonTag (rest.drop 2))
    else
      c :: stripFencesF fuel rest

/-- One global pass of `replace(/```json\n?|```/g, '')` over the characters. -/
def stripFences (l : List Char) : List Char :=
  stripFencesF l.length l

/-- Whitespace as trimmed by `String.prototype.trim` (the ASCII part of the
JS whitespace set; the Unicode spaces never occur in the fence delimiters). -/
def isJsWS (c : Char) : Bool :=
  c = ' ' || c = '\t' || c = '\n' || c = '\r' || c = '\x0b' || c = '\x0c'

/-- Leading-whitespace removal of `trim()`. -/
def trimLeftChars (l : List Char) : List Char := l.dropWhile isJsWS

/-- Trailing-whitespace removal of `trim()`. -/
def trimRightChars (l : List Char) : List Char := (l.reverse.dropWhile isJsWS).reverse

/-- Character-level `trim()`. -/
def trimChars (l : List Char) : List Char := trimRightChars (trimLeftChars l)

/-- The clean step of `streamJson` (line 42): strip the fence markers, then
trim the result. -/
def clean (s : String) : String := String.mk (trimChars (stripFences s.data))

/-- Does the character list contain a "```" occurrence? -/
def hasFence : List Char → Bool
  | [] => false
  | c :: rest => if (c :: rest).take 3 = ['`', '`', '`'] then true else hasFence rest

/-! ### Lemmas about the clean step -/

theorem dropJsonTag_length_le (l : List Char) : (dropJsonTag l).length ≤ l.length := by
  unfold dropJsonTag
  split
  · simp
  · split
    · simp
    · exact Nat.le_refl _

theorem stripFencesF_congr :
    ∀ (f₁ f₂ : Nat) (l : List Char), l.length ≤ f₁ → l.length ≤ f₂ →
      stripFencesF f₁ l = stripFencesF f₂ l := by
  intro f₁
  induction f₁ with
  | zero =>
    intro f₂ l h₁ _
    have hl : l = [] := List.eq_nil_of_length_eq_zero (Nat.le_zero.mp h₁)
    subst hl
    cases f₂ <;> rfl
  | succ n ih =>
    intro f₂ l h₁ h₂
    cases l with
    | nil => cases f₂ <;> rfl
    | cons c rest =>
      cases f₂ with
      | zero => simp at h₂
      | succ m =>
        simp only [stripFencesF]
        by_cases hc : (c :: rest).take 3 = ['`', '`', '`']
        · rw [if_pos hc, if_pos hc]
          have hlen : (dropJsonTag (rest.drop 2)).length ≤ rest.length := by
            calc (dropJsonTag (rest.drop 2)).length
                ≤ (rest.drop 2).length := dropJsonTag_length_le _
              _ ≤ rest.length := by simp
          have hr : rest.length ≤ n := by simpa using h₁
          have hr' : rest.length ≤ m := by simpa using h₂
          exact ih m _ (Nat.le_trans hlen hr) (Nat.le_trans hlen hr')
        · rw [if_neg hc, if_neg hc]
          have hr : rest.length ≤ n := by simpa using h₁
          have hr' : rest.length ≤ m := by simpa using h₂
          rw [ih m rest hr hr']

theorem stripFences_cons_fence (c : Char) (rest : List Char)
    (h : (c :: rest).take 3 = ['`', '`', '`']) :
    stripFences (c :: rest) = stripFences (dropJsonTag (rest.drop 2)) := by
  unfold stripFences
  have h1 : stripFencesF (c :: rest).length (c :: rest)
      = stripFencesF rest.length (dropJsonTag (rest.drop 2)) := by
    simp only [List.length_cons, stripFencesF, if_pos h]
  rw [h1]
  apply stripFencesF_congr
  · calc (dropJsonTag (rest.drop 2)).length
        ≤ (rest.drop 2).length := dropJsonTag_length_le _
      _ ≤ rest.length := by simp
  · exact Nat.le_refl _

theorem stripFences_cons_emit (c : Char) (rest : List Char)
    (h : ¬ (c :: rest).take 3 = ['`', '`', '`']) :
    stripFences (c :: rest) = c :: stripFences rest := by
  unfold stripFences
  simp only [List.length_cons, stripFencesF, if_neg h]

theorem hasFence_cons (c : Char) (rest : List Char) :
    hasFence (c :: rest)
      = if (c :: rest).take 3 = ['`', '`', '`'] then true else hasFence rest := rfl

theorem hasFence_cons_of (c : Char) (rest : List Char) (h : hasFence rest = true) :
    hasFence (c :: rest) = true := by
  rw [hasFence_cons]
  split <;> simp [h]

/-- The head of the strip output comes from the head of the input: if the
output starts with a backtick, so did the input. -/
theorem stripFences_head_backtick (l : List Char)
    (h : (stripFences l).head? = some '`') : l.head? = some '`' := by
  cases l with
  | nil => simp [stripFences, stripFencesF] at h
  | cons c rest =>
    by_cases hc : (c :: rest).take 3 = ['`', '`', '`']
    · have : c = '`' := by
        simpa using congrArg List.head? hc
      simp [this]
    · rw [stripFences_cons_emit c rest hc] at h
      simpa using h

/-- If the strip output starts with two backticks, so did the input. -/
theorem stripFences_take2_backticks (l : List Char)
    (h : (stripFences l).take 2 = ['`', '`']) : l.take 2 = ['`', '`'] := by
  cases l with
  | nil => simp [stripFences, stripFencesF] at h
  | cons c rest =>
    by_cases hc : (c :: rest).take 3 = ['`', '`', '`']
    · have h3 := congrArg (List.take 2) hc
      simpa [List.take_take] using h3
    · rw [stripFences_cons_emit c rest hc] at h
      rw [show (2 : Nat) = 1 + 1 from rfl, List.take_succ_cons] at h
      have hc' : c = '`' ∧ (stripFences rest).take 1 = ['`'] := by
        cases hst : (stripFences rest) with
        | nil => rw [hst] at h; simp at h
        | cons d t =>
          rw [hst] at h
          simp at h
          exact ⟨h.1, by simp [hst, h.2]⟩
      have hhead : (stripFences rest).head? = some '`' := by
        cases hst : (stripFences rest) with
        | nil => rw [hst] at hc'; simp at hc'
        | cons d t =>
          rw [hst] at hc'
          have : d = '`' := by simpa using hc'.2
          simp [this]
      have := stripFences_head_backtick rest hhead
      cases rest with
      | nil => simp at this
      | cons d t =>
        have hd : d = '`' := by simpa using this
        simp [hc'.1, hd]

/-- The strip output never contains a fence occurrence. -/
theorem hasFence_stripFences (l : List Char) : hasFence (stripFences l) = false := by
  have main : ∀ (n : Nat) (l : List Char), l.length ≤ n → hasFence (stripFences l) = false := by
    intro n
    induction n with
    | zero =>
      intro l h
      have hl : l = [] := List.eq_nil_of_length_eq_zero (Nat.le_zero.mp h)
      subst hl
      rfl
    | succ n ih =>
      intro l h
      cases l with
      | nil => rfl
      | cons c rest =>
        by_cases hc : (c :: rest).take 3 = ['`', '`', '`']
        · rw [stripFences_cons_fence c rest hc]
          apply ih
          have h1 : (dropJsonTag (rest.drop 2)).length ≤ rest.length := by
            calc (dropJsonTag (rest.drop 2)).length
                ≤ (rest.drop 2).length := dropJsonTag_length_le _
              _ ≤ rest.length := by simp
          have h2 : rest.length ≤ n := by simpa using h
          exact Nat.le_trans h1 h2
        · rw [stripFences_cons_emit c rest hc]
          rw [hasFence_cons]
          have hnot : ¬ (c :: stripFences rest).take 3 = ['`', '`', '`'] := by
            intro habs
            apply hc
            have hc2 : c = '`' ∧ (stripFences rest).take 2 = ['`', '`'] := by
              rw [show (3 : Nat) = 2 + 1 from rfl, List.take_succ_cons] at habs
              cases hst : (stripFences rest) with
              | nil => rw [hst] at habs; simp at habs
              | cons d t =>
                rw [hst] at habs
                simp at habs
                refine ⟨habs.1, ?_⟩
                rw [show (2 : Nat) = 1 + 1 from rfl, List.take_succ_cons, habs.2.1, habs.2.2]
            have := stripFences_take2_backticks rest hc2.2
            rw [show (3 : Nat) = 2 + 1 from rfl, List.take_succ_cons, hc2.1]
            rw [this]
          rw [if_neg hnot]
          apply ih
          simpa using h
  exact main l.length l (Nat.le_refl _)

/-- On fence-free input the strip pass is the identity. -/
theorem stripFences_of_not_hasFence (l : List Char) (h : hasFence l = false) :
    stripFences l = l := by
  induction l with
  | nil => rfl
  | cons c rest ih =>
    rw [hasFence_cons] at h
    by_cases hc : (c :: rest).take 3 = ['`', '`', '`']
    · rw [if_pos hc] at h
      exact absurd h (by simp)
    · rw [if_neg hc] at h
      rw [stripFences_cons_emit c rest hc, ih h]

theorem hasFence_append_right (l b : List Char) (h : hasFence l = true) :
    hasFence (l ++ b) = true := by
  induction l with
  | nil => simp [hasFence] at h
  | cons c rest ih =>
    rw [hasFence_cons] at h
    by_cases hc : (c :: rest).take 3 = ['`', '`', '`']
    · have hlen : 3 ≤ (c :: rest).length := by
        have h3 := congrArg List.length hc
        rw [List.length_take] at h3
        simp only [List.length_cons] at h3 ⊢
        omega
      have : ((c :: rest) ++ b).take 3 = ['`', '`', '`'] := by
        rw [List.take_append_of_le_length hlen, hc]
      rw [show (c :: rest) ++ b = c :: (rest ++ b) from rfl] at this ⊢
      rw [hasFence_cons, if_pos this]
    · rw [if_neg hc] at h
      have := ih h
      rw [show (c :: rest) ++ b = c :: (rest ++ b) from rfl]
      exact hasFence_cons_of _ _ this

theorem hasFence_append_left (a m : List Char) (h : hasFence m = true) :
    hasFence (a ++ m) = true := by
  induction a with
  | nil => simpa using h
  | cons c rest ih => exact hasFence_cons_of _ _ ih

theorem trimLeftChars_decomp (l : List Char) :
    l.takeWhile isJsWS ++ trimLeftChars l = l :=
  List.takeWhile_append_dropWhile isJsWS l

theorem trimRightChars_decomp (m : List Char) :
    trimRightChars m ++ (m.reverse.takeWhile isJsWS).reverse = m := by
  unfold trimRightChars
  rw [← List.reverse_append, List.takeWhile_append_dropWhile]
  exact List.reverse_reverse m

/-- Trimming cannot create a fence: the trimmed text is an inner segment of
the input. -/
theorem hasFence_trimChars (l : List Char) (h : hasFence (trimChars l) = true) :
    hasFence l = true := by
  have step1 : hasFence (trimLeftChars l) = true := by
    have := hasFence_append_right (trimRightChars (trimLeftChars l))
      (((trimLeftChars l).reverse.takeWhile isJsWS).reverse) h
    rwa [trimRightChars_decomp (trimLeftChars l)] at this
  have := hasFence_append_left (l.takeWhile isJsWS) (trimLeftChars l) step1
  rwa [trimLeftChars_decomp l] at this

theorem dropWhile_isJsWS_head_false :
    ∀ (l : List Char) (c : Char) (t : List Char),
      List.dropWhile isJsWS l = c :: t → isJsWS c = false := by
  intro l
  induction l with
  | nil => intro c t h; simp [List.dropWhile] at h
  | cons x rest ih =>
    intro c t h
    rw [List.dropWhile_cons] at h
    by_cases hx : isJsWS x
    · rw [if_pos hx] at h
      exact ih c t h
    · rw [if_neg hx] at h
      have : x = c := (List.cons.injEq _ _ _ _ ▸ h).1
      subst this
      simpa using hx

theorem dropWhile_isJsWS_idem (l : List Char) :
    List.dropWhile isJsWS (List.dropWhile isJsWS l) = List.dropWhile isJsWS l := by
  cases h : List.dropWhile isJsWS l with
  | nil => simp
  | cons c t =>
    have hc := dropWhile_isJsWS_head_false l c t h
    rw [List.dropWhile_cons, if_neg (by simp [hc])]

theorem trimRightChars_idem (m : List Char) :
    trimRightChars (trimRightChars m) = trimRightChars m := by
  unfold trimRightChars
  rw [List.reverse_reverse, dropWhile_isJsWS_idem]

/-- A left-trimmed list stays left-trimmed after right trimming. -/
theorem trimLeftChars_trimRightChars (m : List Char) (hm : trimLeftChars m = m) :
    trimLeftChars (trimRightChars m) = trimRightChars m := by
  cases h : trimRightChars m with
  | nil => simp [trimLeftChars]
  | cons c t =>
    have hdecomp := trimRightChars_decomp m
    rw [h] at hdecomp
    have hm2 : m = c :: (t ++ (m.reverse.takeWhile isJsWS).reverse) := hdecomp.symm
    have hfirst : isJsWS c = false := by
      cases hv : isJsWS c with
      | false => rfl
      | true =>
        exfalso
        have hdw : List.dropWhile isJsWS m
            = List.dropWhile isJsWS (t ++ (m.reverse.takeWhile isJsWS).reverse) := by
          conv_lhs => rw [hm2, List.dropWhile_cons_of_pos hv]
        have hlen1 : (List.dropWhile isJsWS m).length = m.length := by
          rw [show List.dropWhile isJsWS m = trimLeftChars m from rfl, hm]
        have hlen2 : (List.dropWhile isJsWS (t ++ (m.reverse.takeWhile isJsWS).reverse)).length
            ≤ (t ++ (m.reverse.takeWhile isJsWS).reverse).length :=
          (List.dropWhile_suffix isJsWS).length_le
        have hL := congrArg List.length hdecomp
        rw [hdw] at hlen1
        simp only [List.length_cons, List.length_append] at hL hlen1 hlen2
        omega
    show List.dropWhile isJsWS (c :: t) = c :: t
    rw [List.dropWhile_cons_of_neg (by simp [hfirst])]

theorem trimChars_idem (l : List Char) : trimChars (trimChars l) = trimChars l := by
  unfold trimChars
  have hm : trimLeftChars (trimLeftChars l) = trimLeftChars l := by
    simpa [trimLeftChars] using dropWhile_isJsWS_idem l
  rw [trimLeftChars_trimRightChars (trimLeftChars l) hm, trimRightChars_idem]

/-- Idempotence of the clean step: a second fence-strip-and-trim pass is a
no-op, because the first pass removes every fence occurrence and trimming
is idempotent. -/
theorem clean_idem (s : String) : clean (clean s) = clean s := by
  show String.mk (trimChars (stripFences (trimChars (stripFences s.data))))
      = String.mk (trimChars (stripFences s.data))
  have hnof : hasFence (trimChars (stripFences s.data)) = false := by
    cases hv : hasFence (trimChars (stripFences s.data)) with
    | false => rfl
    | true =>
      have := hasFence_trimChars _ hv
      rw [hasFence_stripFences] at this
      exact absurd this (by simp)
  rw [stripFences_of_not_hasFence _ hnof, trimChars_idem]

/-! ## Stream aggregation (`gemini.ts` lines 19–49)

`streamJson` drives the chunk stream, accumulating `chunk.text` into
`fullText` and invoking `onUpdate(fullText)` after every truthy chunk,
then fence-strips, trims and `JSON.parse`s the accumulated text.

The transport is an oracle from the prompt (`contents`) to either a
rejection or the list of chunk texts (an empty string standing for a
falsy `chunk.text`).  `JSON.parse` plus schema-shaped reading is an
oracle `parse`; a parse failure is re-thrown by the `catch` block, so it
stays an `Except.error`.  The `onUpdate` callback is observed through
the list of strings it would be called with, in order. -/

/-- Concatenation of a list of chunk texts. -/
def concatAll : List String → String
  | [] => ""
  | s :: rest => s ++ concatAll rest

/-- Result of a `streamJson` run: the value (or error) and the successive
`onUpdate` arguments. -/
structure StreamResult (α : Type) where
  result : Except GeminiError α
  updates : List String

/-- The accumulation loop (`for await ... if (text) ...`): returns the final
`fullText` and the list of `onUpdate` arguments. -/
def accumulate (acc : String) : List String → String × List String
  | [] => (acc, [])
  | text :: rest =>
    if text = "" then accumulate acc rest
    else
      let newAcc := acc ++ text
      let r := accumulate newAcc rest
      (r.1, newAcc :: r.2)

/-- The stream aggregator `streamJson`: credential precondition, transport,
accumulation, clean, parse. -/
def streamJson {α : Type} (store : Option String) (contents : String)
    (transport : String → Except GeminiError (List String))
    (parse : String → Except GeminiError α) : StreamResult α :=
  match getAI store with
  | .error e => ⟨.error e, []⟩
  | .ok _ =>
    match transport contents with
    | .error e => ⟨.error e, []⟩
    | .ok chunks =>
      let r := accumulate "" chunks
      ⟨parse (clean r.1), r.2⟩

/-! ### String append facts used by the accumulation lemmas -/

theorem strEmptyAppend (s : String) : "" ++ s = s := by
  cases s
  rfl

theorem strAppendEmpty (s : String) : s ++ "" = s := by
  cases s with
  | mk data =>
    show String.mk (data ++ []) = String.mk data
    rw [List.append_nil]

theorem strAppendAssoc (a b c : String) : a ++ b ++ c = a ++ (b ++ c) := by
  cases a with
  | mk da =>
    cases b with
    | mk db =>
      cases c with
      | mk dc =>
        show String.mk (da ++ db ++ dc) = String.mk (da ++ (db ++ dc))
        rw [List.append_assoc]

/-! ### Accumulation lemmas -/

theorem accumulate_cons_empty (acc : String) (rest : List String) :
    accumulate acc ("" :: rest) = accumulate acc rest := by
  simp [accumulate]

theorem accumulate_cons_ne (acc text : String) (rest : List String) (h : ¬ text = "") :
    accumulate acc (text :: rest)
      = ((accumulate (acc ++ text) rest).1, (acc ++ text) :: (accumulate (acc ++ text) rest).2) := by
  simp [accumulate, h]

/-- The final accumulated text is the concatenation of every chunk
(chunks with falsy text contribute nothing). -/
theorem accumulate_fst (chunks : List String) :
    ∀ acc : String, (accumulate acc chunks).1 = acc ++ concatAll chunks := by
  induction chunks with
  | nil =>
    intro acc
    simp [accumulate, concatAll, strAppendEmpty]
  | cons text rest ih =>
    intro acc
    by_cases ht : text = ""
    · subst ht
      rw [accumulate_cons_empty, ih acc]
      simp only [concatAll]
      rw [strEmptyAppend]
    · rw [accumulate_cons_ne acc text rest ht]
      simp only [concatAll]
      rw [ih (acc ++ text), strAppendAssoc]

/-- As many `onUpdate` calls as truthy chunks. -/
theorem accumulate_snd_length (chunks : List String) :
    ∀ acc : String,
      (accumulate acc chunks).2.length = (chunks.filter (fun t => !(t = ""))).length := by
  induction chunks with
  | nil => intro acc; simp [accumulate]
  | cons text rest ih =>
    intro acc
    by_cases ht : text = ""
    · subst ht
      rw [accumulate_cons_empty, ih acc, List.filter_cons_of_neg (by simp)]
    · rw [accumulate_cons_ne acc text rest ht]
      show ((acc ++ text) :: (accumulate (acc ++ text) rest).2).length = _
      rw [List.length_cons, ih (acc ++ text), List.filter_cons_of_pos (by simp [ht]),
        List.length_cons]

/-- The `i`-th `onUpdate` argument is the concatenation of the truthy chunks
seen so far. -/
theorem accumulate_snd_getD (chunks : List String) :
    ∀ (acc : String) (i : Nat), i < (accumulate acc chunks).2.length →
      (accumulate acc chunks).2.getD i ""
        = acc ++ concatAll ((chunks.filter (fun t => !(t = ""))).take (i + 1)) := by
  induction chunks with
  | nil =>
    intro acc i h
    simp [accumulate] at h
  | cons text rest ih =>
    intro acc i h
    by_cases ht : text = ""
    · subst ht
      rw [accumulate_cons_empty] at h ⊢
      rw [ih acc i h, List.filter_cons_of_neg (by simp)]
    · rw [accumulate_cons_ne acc text rest ht] at h ⊢
      cases i with
      | zero =>
        show ((acc ++ text) :: (accumulate (acc ++ text) rest).2).getD 0 "" = _
        rw [List.getD_cons_zero, List.filter_cons_of_pos (by simp [ht]), List.take_succ_cons,
          List.take_zero]
        simp only [concatAll]
        rw [strAppendEmpty]
      | succ j =>
        show ((acc ++ text) :: (accumulate (acc ++ text) rest).2).getD (j + 1) "" = _
        have h' : j + 1 < ((acc ++ text) :: (accumulate (acc ++ text) rest).2).length := h
        rw [List.length_cons] at h'
        have hj : j < (accumulate (acc ++ text) rest).2.length := Nat.lt_of_succ_lt_succ h'
        rw [List.getD_cons_succ, ih (acc ++ text) j hj,
          List.filter_cons_of_pos (by simp [ht]), List.take_succ_cons]
        simp only [concatAll]
        rw [strAppendAssoc]

/-! ## Prompt templates and stage functions (`gemini.ts` lines 51–354)

Each stage builds a fixed prompt from prior-stage outputs and delegates
to the stream aggregator (text) or to the image client (images).  The
schema/config objects passed to the API are opaque to every claim; the
schema-conformant reading of the parsed JSON is folded into the `parse`
oracle of each stage. -/

/-- Prompt of `generateTitleAndSetting` (lines 55–57). -/
def titleSettingPrompt (theme : String) : String :=
  "Theme: " ++ theme ++ ".\n    Generate a Title and a 2-sentence Setting Summary for a Technoir transmission.\n    The tone should be gritty, cyberpunk noir."

/-- Step 1a (lines 52–72). -/
def generateTitleAndSetting (store : Option String) (theme : String)
    (transport : String → Except GeminiError (List String))
    (parse : String → Except GeminiError TitleSetting) : StreamResult TitleSetting :=
  streamJson store (titleSettingPrompt theme) transport parse

/-- Prompt of `generateExposition` (lines 78–85). -/
def expositionPrompt (theme title settingSummary : String) : String :=
  "Theme: " ++ theme ++ ".\n    Transmission Title: \"" ++ title
    ++ "\".\n    Setting Summary: \"" ++ settingSummary
    ++ "\".\n    \n    Based on the above, create detailed Exposition parameters (1 paragraph each) for:\n    1. Technology (Unique tech quirks of this setting)\n    2. Society (Class struggle, crime, or culture)\n    3. Environment (Physical atmosphere, weather, architecture)"

/-- Step 1b (lines 75–101). -/
def generateExposition (store : Option String) (theme title settingSummary : String)
    (transport : String → Except GeminiError (List String))
    (parse : String → Except GeminiError Exposition) : StreamResult Exposition :=
  streamJson store (expositionPrompt theme title settingSummary) transport parse

/-- Prompt of `generateLeads` (lines 107–114; the `theme` argument is not
interpolated by the source template). -/
def leadsPrompt (title summary : String) (exposition : Exposition) : String :=
  "Context: A Technoir setting titled \"" ++ title ++ "\".\n    Summary: " ++ summary
    ++ "\n    Technology: " ++ exposition.technology
    ++ "\n    Society: " ++ exposition.society
    ++ "\n    Environment: " ++ exposition.environment
    ++ "\n    \n    Generate 36 leads: Exactly 6 leads for each of these 6 categories: Connections, Events, Locations, Objects, Threats, Factions.\n    Each lead name should be 2-3 words. Description should be exactly 1 evocative sentence that ties into the exposition provided."

/-- Step 1c (lines 104–141): the parse oracle yields the optional `leads`
field of the response object; the function returns `data.leads || []`.
No count or per-category check is performed on the parsed array. -/
def generateLeads (store : Option String) (theme title summary : String)
    (exposition : Exposition)
    (transport : String → Except GeminiError (List String))
    (parse : String → Except GeminiError (Option (List Lead))) : StreamResult (List Lead) :=
  let r := streamJson store (leadsPrompt title summary exposition) transport parse
  { result :=
      match r.result with
      | .ok data => .ok (data.getD [])
      | .error e => .error e
    updates := r.updates }

/-! ### Image stages

A response is a list of parts, each with an optional `inlineData` base64
payload; the loop returns the first inline payload as a data URI.  The
whole body of each image stage sits in a `try` whose `catch` returns
`undefined`, so the stage's promise never rejects: the outer `Except` is
always `.ok`. -/

/-- The `for (const part of ...)` loop over response parts (lines 158–162,
266–270, 412–416). -/
def firstInlineImage : List (Option String) → Option String
  | [] => none
  | some d :: _ => some ("data:image/png;base64," ++ d)
  | none :: rest => firstInlineImage rest

/-- Prompt of `generateTransmissionHeader` (lines 150–153). -/
def headerImagePrompt (title summary : String) (exposition : Exposition) : String :=
  "Cinematic wide-shot cyberpunk noir landscape for a setting titled \"" ++ title
    ++ "\". \n        Context: " ++ summary
    ++ ". \n        Visual details: " ++ exposition.environment
    ++ ". \n        Neon rain, heavy atmosphere, hyper-detailed, 8k resolution, cinematic lighting."

/-- Step 2 (lines 144–167): header image, failure mapped to no image. -/
def generateTransmissionHeader (store : Option String) (title summary : String)
    (exposition : Exposition)
    (transport : String → Except GeminiError (List (Option String))) :
    Except GeminiError (Option String) :=
  match getAI store with
  | .error _ => .ok none
  | .ok _ =>
    match transport (headerImagePrompt title summary exposition) with
    | .error _ => .ok none
    | .ok parts => .ok (firstInlineImage parts)

/-- Prompt of `generateLeadInspectionText` (lines 178–192). -/
def inspectionTextPrompt (lead : Lead) (title summary : String)
    (exposition : Exposition) : String :=
  "Context: Technoir setting \"" ++ title ++ "\".\n    Summary: " ++ summary
    ++ "\n    Exposition Data:\n    - Tech: " ++ exposition.technology
    ++ "\n    - Society: " ++ exposition.society
    ++ "\n    - Environment: " ++ exposition.environment
    ++ "\n\n    Subject Node:\n    - Name: " ++ lead.name
    ++ "\n    - Category: " ++ categoryName lead.category
    ++ "\n    - Descriptor: " ++ lead.description
    ++ "\n\n    Task: Generate a high-fidelity investigative dossier.\n    1. Sensory Data: 4 distinct sensory inputs (Sight, Sound, Smell, Vibe) that immediately establish the scene/subject.\n    2. Expanded Description: A hardboiled, atmospheric paragraph expanding on the \"Descriptor\" and integrating the \"Exposition Data\". It should feel like a GM describing the node to players."

/-- Dossier deep dive, text part (lines 170–215). -/
def generateLeadInspectionText (store : Option String) (lead : Lead)
    (title summary : String) (exposition : Exposition)
    (transport : String → Except GeminiError (List String))
    (parse : String → Except GeminiError TextDetails) : Except GeminiError TextDetails :=
  (streamJson store (inspectionTextPrompt lead title summary exposition) transport parse).result

/-- Category-keyed visual-focus directive of `generateLeadInspectionImage`
(lines 228–242); the `default` arm covers Connections, Threats, Factions. -/
def inspectionFocusDirective : Category → String
  | .Locations => "Wide or medium shot of the environment/location. Architecture, mood, lighting. NO central character. Environmental focus."
  | .Objects => "Close-up product shot or macro detail of the object. High texture. Object is the sole subject. No people."
  | .Events => "Dynamic scene, active situation, implied motion. Narrative focus."
  | _ => "Character portrait or group shot. Distinct cyberpunk fashion, expressive, moody lighting. Focus on the individual(s)."

/-- Prompt of `generateLeadInspectionImage` (lines 249–258). -/
def inspectionImagePrompt (lead : Lead) (title summary sensorySight : String) : String :=
  "Cinematic cyberpunk noir visualization.\n          Subject: \"" ++ lead.name
    ++ "\"\n          Descriptor: " ++ lead.description
    ++ "\n          Category: " ++ categoryName lead.category
    ++ "\n          \n          Context: " ++ title ++ ". " ++ summary
    ++ "\n          Visual Flavor: " ++ sensorySight
    ++ "\n          \n          Directive: " ++ inspectionFocusDirective lead.category
    ++ "\n          Style: Gritty, shadow-heavy, high contrast, hyper-detailed, 8k resolution, cinematic lighting, volumetric fog."

/-- Dossier deep dive, image part (lines 218–275): failure mapped to no image. -/
def generateLeadInspectionImage (store : Option String) (lead : Lead)
    (title summary sensorySight : String)
    (transport : String → Except GeminiError (List (Option String))) :
    Except GeminiError (Option String) :=
  match getAI store with
  | .error _ => .ok none
  | .ok _ =>
    match transport (inspectionImagePrompt lead title summary sensorySight) with
    | .error _ => .ok none
    | .ok parts => .ok (firstInlineImage parts)

/-! ### Single-field regeneration stages -/

/-- Names of the four sensory sub-fields. -/
inductive SensoryField where
  | sight
  | sound
  | smell
  | vibe
deriving DecidableEq, Repr

/-- The JS property name of a sensory field. -/
def sensoryFieldName : SensoryField → String
  | .sight => "sight"
  | .sound => "sound"
  | .smell => "smell"
  | .vibe => "vibe"

/-- Read a sensory field. -/
def getSensory (s : Sensory) : SensoryField → String
  | .sight => s.sight
  | .sound => s.sound
  | .smell => s.smell
  | .vibe => s.vibe

/-- The spread-with-computed-key update `{ ...sensory, [field]: v }`. -/
def setSensory (s : Sensory) : SensoryField → String → Sensory
  | .sight, v => { s with sight := v }
  | .sound, v => { s with sound := v }
  | .smell, v => { s with smell := v }
  | .vibe, v => { s with vibe := v }

/-- `Object.entries(currentSensory)` in insertion order. -/
def sensoryEntries (s : Sensory) : List (String × String) :=
  [("sight", s.sight), ("sound", s.sound), ("smell", s.smell), ("vibe", s.vibe)]

/-- `Array.prototype.join('\n')`. -/
def joinNewline : List String → String
  | [] => ""
  | [a] => a
  | a :: rest => a ++ "\n" ++ joinNewline rest

/-- The `otherFields` context of `regenerateSensoryField` (lines 284–287):
every sensory entry except the regenerated one, rendered `key: value` and
joined by newlines. -/
def otherFields (fieldName : SensoryField) (s : Sensory) : String :=
  joinNewline
    (((sensoryEntries s).filter (fun kv => !(kv.1 = sensoryFieldName fieldName))).map
      (fun kv => kv.1 ++ ": " ++ kv.2))

/-- Prompt of `regenerateSensoryField` (lines 291–302). -/
def sensoryRegenPrompt (lead : Lead) (fieldName : SensoryField) (currentSensory : Sensory)
    (exposition : Exposition) : String :=
  "Context: Technoir lead \"" ++ lead.name ++ "\" (" ++ categoryName lead.category
    ++ ").\n    Description: " ++ lead.description
    ++ "\n\n    Exposition Context:\n    - Tech: " ++ exposition.technology
    ++ "\n    - Society: " ++ exposition.society
    ++ "\n    - Environment: " ++ exposition.environment
    ++ "\n\n    Existing sensory data:\n    " ++ otherFields fieldName currentSensory
    ++ "\n\n    Task: Generate a new " ++ sensoryFieldName fieldName
    ++ " sensory input that complements the existing sensory data and fits the exposition context. Keep it concise and evocative."

/-- Regenerate a single sensory field (lines 278–316): the parse oracle
yields `result[fieldName]`. -/
def regenerateSensoryField (store : Option String) (lead : Lead)
    (fieldName : SensoryField) (currentSensory : Sensory) (exposition : Exposition)
    (transport : String → Except GeminiError (List String))
    (parse : String → Except GeminiError String) : Except GeminiError String :=
  (streamJson store (sensoryRegenPrompt lead fieldName currentSensory exposition)
    transport parse).result

/-- Prompt of `regenerateExpandedDescription` (lines 326–340). -/
def dossierRegenPrompt (lead : Lead) (sensory : Sensory) (exposition : Exposition) : String :=
  "Context: Technoir lead \"" ++ lead.name ++ "\" (" ++ categoryName lead.category
    ++ ").\n    Description: " ++ lead.description
    ++ "\n\n    Exposition Context:\n    - Tech: " ++ exposition.technology
    ++ "\n    - Society: " ++ exposition.society
    ++ "\n    - Environment: " ++ exposition.environment
    ++ "\n\n    Sensory Data:\n    - Sight: " ++ sensory.sight
    ++ "\n    - Sound: " ++ sensory.sound
    ++ "\n    - Smell: " ++ sensory.smell
    ++ "\n    - Vibe: " ++ sensory.vibe
    ++ "\n\n    Task: Generate a hardboiled, atmospheric paragraph (expanded description) that integrates the sensory data and exposition. It should feel like a GM describing this node to players in a Technoir game."

/-- Regenerate the expanded description (lines 319–354). -/
def regenerateExpandedDescription (store : Option String) (lead : Lead)
    (sensory : Sensory) (exposition : Exposition)
    (transport : String → Except GeminiError (List String))
    (parse : String → Except GeminiError String) : Except GeminiError String :=
  (streamJson store (dossierRegenPrompt lead sensory exposition) transport parse).result

/-- Category-keyed visual-focus directive of `regenerateLeadImage`
(lines 366–379), a verbatim duplicate of the inspection-image switch. -/
def regenFocusDirective : Category → String
  | .Locations => "Wide or medium shot of the environment/location. Architecture, mood, lighting. NO central character. Environmental focus."
  | .Objects => "Close-up product shot or macro detail of the object. High texture. Object is the sole subject. No people."
  | .Events => "Dynamic scene, active situation, implied motion. Narrative focus."
  | _ => "Character portrait or group shot. Distinct cyberpunk fashion, expressive, moody lighting. Focus on the individual(s)."

/-- Prompt of `regenerateLeadImage` (lines 386–404). -/
def regenImagePrompt (lead : Lead) (sensory : Sensory) (expandedDescription : String)
    (exposition : Exposition) : String :=
  "Cinematic cyberpunk noir visualization.\n          Subject: \"" ++ lead.name
    ++ "\"\n          Category: " ++ categoryName lead.category
    ++ "\n          Description: " ++ lead.description
    ++ "\n\n          Environmental Context:\n          - Technology: " ++ exposition.technology
    ++ "\n          - Environment: " ++ exposition.environment
    ++ "\n\n          Visual Details:\n          - Sight: " ++ sensory.sight
    ++ "\n          - Sound: " ++ sensory.sound
    ++ "\n          - Smell: " ++ sensory.smell
    ++ "\n          - Vibe: " ++ sensory.vibe
    ++ "\n\n          Scene Description: " ++ expandedDescription
    ++ "\n\n          Directive: " ++ regenFocusDirective lead.category
    ++ "\n          Style: Gritty, shadow-heavy, high contrast, hyper-detailed, 8k resolution, cinematic lighting, volumetric fog."

/-- Regenerate the lead image with full context (lines 357–421): failure
mapped to no image. -/
def regenerateLeadImage (store : Option String) (lead : Lead) (sensory : Sensory)
    (expandedDescription : String) (exposition : Exposition)
    (transport : String → Except GeminiError (List (Option String))) :
    Except GeminiError (Option String) :=
  match getAI store with
  | .error _ => .ok none
  | .ok _ =>
    match transport (regenImagePrompt lead sensory expandedDescription exposition) with
    | .error _ => .ok none
    | .ok parts => .ok (firstInlineImage parts)

/-! ## Viewer handlers (main app file)

`handleUpdateLead` (lines 605–621) edits a lead's name/description; the
state update is modelled by its effect on the leads list.
`handleRegenerateDossierField` (lines 662–722) regenerates one dossier
field; its effect is modelled as the details the targeted lead holds
after the handler ran (the `setState` merge maps the lead to exactly
these details).  The `canGenerate` guard (key-modal UI) is outside the
modelled generation path. -/

/-- The functional core of `handleUpdateLead`: find the existing lead by id,
clear `details` when name or description changed (otherwise carry the
existing details over), and replace every list entry with that id. -/
def handleUpdateLead (leads : List Lead) (updatedLead : Lead) : List Lead :=
  let existingLead := leads.find? (fun l => l.id == updatedLead.id)
  let finalLead : Lead :=
    match existingLead with
    | some ex =>
      if ex.name ≠ updatedLead.name ∨ ex.description ≠ updatedLead.description then
        { updatedLead with details := none }
      else
        { updatedLead with details := ex.details }
    | none => { updatedLead with details := none }
  leads.map (fun l => if l.id == finalLead.id then finalLead else l)

/-- The three dossier regeneration targets of `handleRegenerateDossierField`. -/
inductive DossierFieldType where
  | sensory
  | dossier
  | image
deriving DecidableEq, Repr

/-- The details held by the targeted lead after `handleRegenerateDossierField`:
an early return (lead without details) keeps `none`; a caught regeneration
error keeps the previous details; the image branch only overwrites
`imageUrl` when a truthy new URL was produced. -/
def handleRegenerateDossierField (store : Option String)
    (sTransport : String → Except GeminiError (List String))
    (sParse : String → Except GeminiError String)
    (dTransport : String → Except GeminiError (List String))
    (dParse : String → Except GeminiError String)
    (iTransport : String → Except GeminiError (List (Option String)))
    (exposition : Exposition) (lead : Lead) (fieldType : DossierFieldType)
    (sensoryField : Option SensoryField) : Option LeadDetails :=
  match lead.details with
  | none => none
  | some d =>
    match fieldType, sensoryField with
    | .sensory, some f =>
      match regenerateSensoryField store lead f d.sensory exposition sTransport sParse with
      | .ok newValue => some { d with sensory := setSensory d.sensory f newValue }
      | .error _ => some d
    | .sensory, none => some d
    | .dossier, _ =>
      match regenerateExpandedDescription store lead d.sensory exposition dTransport dParse with
      | .ok newDescription => some { d with expandedDescription := newDescription }
      | .error _ => some d
    | .image, _ =>
      match regenerateLeadImage store lead d.sensory d.expandedDescription exposition
          iTransport with
      | .ok (some newImageUrl) => some { d with imageUrl := some newImageUrl }
      | .ok none => some d
      | .error _ => some d

/-! ## Full-mode orchestration (`gemini.ts` lines 423–488)

`generateFullTransmission` runs every stage to completion.  The per-lead
loop is sequential; the `try` around the two detail calls of iteration
`i` is the containment rule: on error the basic lead is pushed instead.
The per-iteration transports are indexed by the loop counter, which
models a stage call instrumented per invocation; the `onLog` progress
callback carries no data dependence and is omitted. -/

/-- Body of one iteration of the detail loop (lines 464–481). -/
def processLead (store : Option String) (title summary : String) (exposition : Exposition)
    (txTransport : String → Except GeminiError (List String))
    (txParse : String → Except GeminiError TextDetails)
    (imTransport : String → Except GeminiError (List (Option String)))
    (lead : Lead) : Lead :=
  match generateLeadInspectionText store lead title summary exposition
      txTransport txParse with
  | .error _ => lead
  | .ok textDetails =>
    match generateLeadInspectionImage store lead title summary
        textDetails.sensory.sight imTransport with
    | .error _ => lead
    | .ok imageUrl =>
      let newDetails : LeadDetails :=
        { sensory := textDetails.sensory
          expandedDescription := textDetails.expandedDescription
          imageUrl := imageUrl }
      { lead with details := some newDetails }

/-- The sequential detail loop (lines 458–482), indexed by the loop counter. -/
def detailLoop (store : Option String) (title summary : String) (exposition : Exposition)
    (txTransport : Nat → String → Except GeminiError (List String))
    (txParse : String → Except GeminiError TextDetails)
    (imTransport : Nat → String → Except GeminiError (List (Option String))) :
    Nat → List Lead → List Lead
  | _, [] => []
  | i, lead :: rest =>
    processLead store title summary exposition (txTransport i) txParse (imTransport i) lead
      :: detailLoop store title summary exposition txTransport txParse imTransport (i + 1) rest

/-- Full-mode orchestration (lines 425–488). -/
def generateFullTransmission (store : Option String) (theme : String)
    (tsTransport : String → Except GeminiError (List String))
    (tsParse : String → Except GeminiError TitleSetting)
    (exTransport : String → Except GeminiError (List String))
    (exParse : String → Except GeminiError Exposition)
    (ldTransport : String → Except GeminiError (List String))
    (ldParse : String → Except GeminiError (Option (List Lead)))
    (hdTransport : String → Except GeminiError (List (Option String)))
    (txTransport : Nat → String → Except GeminiError (List String))
    (txParse : String → Except GeminiError TextDetails)
    (imTransport : Nat → String → Except GeminiError (List (Option String)))
    (idv : Nat) (createdAt : String) : Except GeminiError Transmission := do
  let ts ← (generateTitleAndSetting store theme tsTransport tsParse).result
  let exposition ← (generateExposition store theme ts.title ts.settingSummary
    exTransport exParse).result
  let leads ← (generateLeads store theme ts.title ts.settingSummary exposition
    ldTransport ldParse).result
  let headerImageUrl ← generateTransmissionHeader store ts.title ts.settingSummary
    exposition hdTransport
  let detailedLeads := detailLoop store ts.title ts.settingSummary exposition
    txTransport txParse imTransport 0 leads
  Except.ok
    { id := idv
      createdAt := createdAt
      title := ts.title
      settingSummary := ts.settingSummary
      exposition := exposition
      leads := detailedLeads
      headerImageUrl := headerImageUrl }

/-! ## Helper lemmas -/

theorem streamJson_none {α : Type} (contents : String)
    (transport : String → Except GeminiError (List String))
    (parse : String → Except GeminiError α) :
    streamJson none contents transport parse
      = ⟨.error .missingCredential, []⟩ := rfl

theorem streamJson_some_ok {α : Type} (k contents : String)
    (transport : String → Except GeminiError (List String))
    (parse : String → Except GeminiError α) (chunks : List String)
    (ht : transport contents = .ok chunks) :
    streamJson (some k) contents transport parse
      = ⟨parse (clean (concatAll chunks)), (accumulate "" chunks).2⟩ := by
  simp only [streamJson, getAI, getApiKey]
  rw [ht]
  show StreamResult.mk (parse (clean (accumulate "" chunks).1)) (accumulate "" chunks).2 = _
  rw [accumulate_fst chunks "", strEmptyAppend]

theorem streamJson_some_err {α : Type} (k contents : String)
    (transport : String → Except GeminiError (List String))
    (parse : String → Except GeminiError α) (e : GeminiError)
    (ht : transport contents = .error e) :
    streamJson (some k) contents transport parse = ⟨.error e, []⟩ := by
  simp only [streamJson, getAI, getApiKey]
  rw [ht]

theorem generateTransmissionHeader_never_errors (store : Option String)
    (title summary : String) (exposition : Exposition)
    (transport : String → Except GeminiError (List (Option String))) :
    ∃ r, generateTransmissionHeader store title summary exposition transport = .ok r := by
  unfold generateTransmissionHeader
  cases store with
  | none => exact ⟨none, rfl⟩
  | some k =>
    simp only [getAI, getApiKey]
    cases transport (headerImagePrompt title summary exposition) with
    | error e => exact ⟨none, rfl⟩
    | ok parts => exact ⟨firstInlineImage parts, rfl⟩

theorem generateLeadInspectionImage_never_errors (store : Option String) (lead : Lead)
    (title summary sensorySight : String)
    (transport : String → Except GeminiError (List (Option String))) :
    ∃ r, generateLeadInspectionImage store lead title summary sensorySight transport
      = .ok r := by
  unfold generateLeadInspectionImage
  cases store with
  | none => exact ⟨none, rfl⟩
  | some k =>
    simp only [getAI, getApiKey]
    cases transport (inspectionImagePrompt lead title summary sensorySight) with
    | error e => exact ⟨none, rfl⟩
    | ok parts => exact ⟨firstInlineImage parts, rfl⟩

theorem regenerateLeadImage_never_errors (store : Option String) (lead : Lead)
    (sensory : Sensory) (expandedDescription : String) (exposition : Exposition)
    (transport : String → Except GeminiError (List (Option String))) :
    ∃ r, regenerateLeadImage store lead sensory expandedDescription exposition transport
      = .ok r := by
  unfold regenerateLeadImage
  cases store with
  | none => exact ⟨none, rfl⟩
  | some k =>
    simp only [getAI, getApiKey]
    cases transport (regenImagePrompt lead sensory expandedDescription exposition) with
    | error e => exact ⟨none, rfl⟩
    | ok parts => exact ⟨firstInlineImage parts, rfl⟩

theorem firstInlineImage_none (parts : List (Option String))
    (h : ∀ p ∈ parts, p = none) : firstInlineImage parts = none := by
  induction parts with
  | nil => rfl
  | cons p rest ih =>
    have hp : p = none := h p (by simp)
    subst hp
    simp only [firstInlineImage]
    exact ih (fun q hq => h q (by simp [hq]))

theorem firstInlineImage_first (pre : List (Option String)) (d : String)
    (post : List (Option String)) (h : ∀ p ∈ pre, p = none) :
    firstInlineImage (pre ++ some d :: post)
      = some ("data:image/png;base64," ++ d) := by
  induction pre with
  | nil => rfl
  | cons p rest ih =>
    have hp : p = none := h p (by simp)
    subst hp
    simp only [List.cons_append, firstInlineImage]
    exact ih (fun q hq => h q (by simp [hq]))

/-! ## Sample fixtures used by the witnesses -/

def sampleExposition : Exposition :=
  ⟨"Ubiquitous neural laces.", "Corporate clans rule the docks.", "Acid rain on chrome."⟩

def sampleSensory : Sensory := ⟨"A", "B", "C", "D"⟩

def sampleDetails : LeadDetails := ⟨sampleSensory, "E", some "F"⟩

def sampleLead : Lead :=
  ⟨"l1", "The Drowned Arcade", "A flooded mall of dead neon.", Category.Locations,
    some sampleDetails⟩

def defaultLead : Lead := ⟨"", "", "", Category.Connections, none⟩

/-! ## Claim theorems -/

/-- Claim C6: for all accumulated text T (in particular any text wrapped in
0 or 1 layer of triple-backtick fencing, with or without a "json" tag),
the fence-strip-and-trim clean step applied once yields the same parsed
object as applied twice: any parse of `clean T` equals the parse of
`clean (clean T)`. -/
theorem clean_parse_idempotent {α : Type} (parse : String → α) (T : String) :
    parse (clean T) = parse (clean (clean T)) := by
  rw [clean_idem]

/-- Claim C8: in both the lead-detail image prompt and the lead-regeneration
image prompt, the embedded visual-focus directive is a function of the
lead's category alone, per the fixed table: Locations → environment-only
wide shot, Objects → close-up/macro shot, Events → dynamic action framing,
and Connections/Threats/Factions → character-portrait framing; the two
switches agree on every category. -/
theorem focusDirective_table (lead : Lead)
    (title summary sensorySight expandedDescription : String)
    (sensory : Sensory) (exposition : Exposition) :
    (∃ p q, inspectionImagePrompt lead title summary sensorySight
        = p ++ inspectionFocusDirective lead.category ++ q)
    ∧ (∃ p q, regenImagePrompt lead sensory expandedDescription exposition
        = p ++ regenFocusDirective lead.category ++ q)
    ∧ regenFocusDirective lead.category = inspectionFocusDirective lead.category
    ∧ inspectionFocusDirective Category.Locations
        = "Wide or medium shot of the environment/location. Architecture, mood, lighting. NO central character. Environmental focus."
    ∧ inspectionFocusDirective Category.Objects
        = "Close-up product shot or macro detail of the object. High texture. Object is the sole subject. No people."
    ∧ inspectionFocusDirective Category.Events
        = "Dynamic scene, active situation, implied motion. Narrative focus."
    ∧ inspectionFocusDirective Category.Connections
        = "Character portrait or group shot. Distinct cyberpunk fashion, expressive, moody lighting. Focus on the individual(s)."
    ∧ inspectionFocusDirective Category.Threats
        = "Character portrait or group shot. Distinct cyberpunk fashion, expressive, moody lighting. Focus on the individual(s)."
    ∧ inspectionFocusDirective Category.Factions
        = "Character portrait or group shot. Distinct cyberpunk fashion, expressive, moody lighting. Focus on the individual(s)." := by
  refine ⟨⟨_, _, rfl⟩, ⟨_, _, rfl⟩, ?_, rfl, rfl, rfl, rfl, rfl, rfl⟩
  cases h : lead.category <;> rfl

/-- Claim C2 (amended): for every structured-text generation call, a missing
credential fails the call with `MissingCredential` and the transport is
never consulted (the result is the same constant whatever the transport);
for the image generation calls the transport is likewise never consulted,
but the `MissingCredential` error is swallowed by the stage's catch-all
and the call returns no image instead of failing. -/
theorem credentialPrecondition_amended :
    (∀ (α : Type) (contents : String)
        (transport : String → Except GeminiError (List String))
        (parse : String → Except GeminiError α),
        (streamJson none contents transport parse).result
          = .error .missingCredential
        ∧ (streamJson none contents transport parse).updates = [])
    ∧ (∀ (α : Type) (contents : String)
        (t₁ t₂ : String → Except GeminiError (List String))
        (parse : String → Except GeminiError α),
        streamJson none contents t₁ parse = streamJson none contents t₂ parse)
    ∧ (∀ theme transport parse,
        (generateTitleAndSetting none theme transport parse).result
          = .error .missingCredential)
    ∧ (∀ theme title settingSummary transport parse,
        (generateExposition none theme title settingSummary transport parse).result
          = .error .missingCredential)
    ∧ (∀ theme title summary exposition transport parse,
        (generateLeads none theme title summary exposition transport parse).result
          = .error .missingCredential)
    ∧ (∀ lead title summary exposition transport parse,
        generateLeadInspectionText none lead title summary exposition transport parse
          = .error .missingCredential)
    ∧ (∀ lead fieldName currentSensory exposition transport parse,
        regenerateSensoryField none lead fieldName currentSensory exposition transport parse
          = .error .missingCredential)
    ∧ (∀ lead sensory exposition transport parse,
        regenerateExpandedDescription none lead sensory exposition transport parse
          = .error .missingCredential)
    ∧ (∀ title summary exposition transport,
        generateTransmissionHeader none title summary exposition transport = .ok none)
    ∧ (∀ lead title summary sensorySight transport,
        generateLeadInspectionImage none lead title summary sensorySight transport
          = .ok none)
    ∧ (∀ lead sensory expandedDescription exposition transport,
        regenerateLeadImage none lead sensory expandedDescription exposition transport
          = .ok none) :=
  ⟨fun _ _ _ _ => ⟨rfl, rfl⟩, fun _ _ _ _ _ => rfl,
    fun _ _ _ => rfl, fun _ _ _ _ _ => rfl, fun _ _ _ _ _ _ => rfl,
    fun _ _ _ _ _ _ => rfl, fun _ _ _ _ _ _ => rfl, fun _ _ _ _ _ => rfl,
    fun _ _ _ _ => rfl, fun _ _ _ _ _ => rfl, fun _ _ _ _ _ => rfl⟩

/-- Claim C2 counterexample: with no credential, the header-image stage does
NOT fail with a `MissingCredential` error — the error is caught inside the
stage and the call returns successfully with no image, refuting the claim
for image generation calls. -/
theorem credentialPrecondition_image_cex :
    generateTransmissionHeader none "Neon City" "A rain-soaked sprawl."
        sampleExposition (fun _ => .ok [])
      = .ok none
    ∧ generateTransmissionHeader none "Neon City" "A rain-soaked sprawl."
        sampleExposition (fun _ => .ok [])
      ≠ .error .missingCredential := by
  refine ⟨rfl, fun habs => ?_⟩
  rw [show generateTransmissionHeader none "Neon City" "A rain-soaked sprawl."
      sampleExposition (fun _ => .ok []) = Except.ok none from rfl] at habs
  exact Except.noConfusion habs

/-- Claim C9: for every image-generation stage (header image, lead-detail
image, lead-image regeneration), an exception of the underlying call or a
response with no inline image part makes the stage return no image without
propagating any error (the stage result is always a success), and a
response containing an inline image part yields the first such part as a
`data:` URI. -/
theorem imageStages_failure_tolerance (store : Option String) (lead : Lead)
    (title summary sensorySight expandedDescription : String)
    (sensory : Sensory) (exposition : Exposition)
    (hdT inT rgT : String → Except GeminiError (List (Option String))) :
    ((∃ r, generateTransmissionHeader store title summary exposition hdT = .ok r)
      ∧ (∃ r, generateLeadInspectionImage store lead title summary sensorySight inT = .ok r)
      ∧ (∃ r, regenerateLeadImage store lead sensory expandedDescription exposition rgT
          = .ok r))
    ∧ (∀ e, hdT (headerImagePrompt title summary exposition) = .error e →
        generateTransmissionHeader store title summary exposition hdT = .ok none)
    ∧ (∀ e, inT (inspectionImagePrompt lead title summary sensorySight) = .error e →
        generateLeadInspectionImage store lead title summary sensorySight inT = .ok none)
    ∧ (∀ e, rgT (regenImagePrompt lead sensory expandedDescription exposition) = .error e →
        regenerateLeadImage store lead sensory expandedDescription exposition rgT = .ok none)
    ∧ (∀ k parts, store = some k →
        hdT (headerImagePrompt title summary exposition) = .ok parts →
        generateTransmissionHeader store title summary exposition hdT
          = .ok (firstInlineImage parts))
    ∧ (∀ k parts, store = some k →
        inT (inspectionImagePrompt lead title summary sensorySight) = .ok parts →
        generateLeadInspectionImage store lead title summary sensorySight inT
          = .ok (firstInlineImage parts))
    ∧ (∀ k parts, store = some k →
        rgT (regenImagePrompt lead sensory expandedDescription exposition) = .ok parts →
        regenerateLeadImage store lead sensory expandedDescription exposition rgT
          = .ok (firstInlineImage parts))
    ∧ (∀ parts, (∀ p ∈ parts, p = none) → firstInlineImage parts = none)
    ∧ (∀ pre d post, (∀ p ∈ pre, p = none) →
        firstInlineImage (pre ++ some d :: post)
          = some ("data:image/png;base64," ++ d)) := by
  refine ⟨⟨generateTransmissionHeader_never_errors store title summary exposition hdT,
      generateLeadInspectionImage_never_errors store lead title summary sensorySight inT,
      regenerateLeadImage_never_errors store lead sensory expandedDescription exposition rgT⟩,
    ?_, ?_, ?_, ?_, ?_, ?_,
    firstInlineImage_none, firstInlineImage_first⟩
  · intro e he
    unfold generateTransmissionHeader
    cases store with
    | none => rfl
    | some k =>
      simp only [getAI, getApiKey]
      rw [he]
  · intro e he
    unfold generateLeadInspectionImage
    cases store with
    | none => rfl
    | some k =>
      simp only [getAI, getApiKey]
      rw [he]
  · intro e he
    unfold regenerateLeadImage
    cases store with
    | none => rfl
    | some k =>
      simp only [getAI, getApiKey]
      rw [he]
  · intro k parts hk hp
    subst hk
    unfold generateTransmissionHeader
    simp only [getAI, getApiKey]
    rw [hp]
  · intro k parts hk hp
    subst hk
    unfold generateLeadInspectionImage
    simp only [getAI, getApiKey]
    rw [hp]
  · intro k parts hk hp
    subst hk
    unfold regenerateLeadImage
    simp only [getAI, getApiKey]
    rw [hp]

/-- Claim C9 witness: concrete failing and succeeding image calls. -/
theorem imageStages_failure_tolerance_witness :
    generateTransmissionHeader (some "key") "T" "S" sampleExposition
        (fun _ => .error (.transportFailure "down"))
      = .ok none
    ∧ generateLeadInspectionImage (some "key") sampleLead "T" "S" "A"
        (fun _ => .ok [none, some "QUFB"])
      = .ok (some "data:image/png;base64,QUFB")
    ∧ regenerateLeadImage (some "key") sampleLead sampleSensory "E" sampleExposition
        (fun _ => .ok [])
      = .ok none := by
  have h := imageStages_failure_tolerance (some "key") sampleLead "T" "S" "A" "E"
    sampleSensory sampleExposition
    (fun _ => .error (.transportFailure "down"))
    (fun _ => .ok [none, some "QUFB"])
    (fun _ => .ok [])
  refine ⟨h.2.1 (.transportFailure "down") rfl, ?_, ?_⟩
  · have h2 := h.2.2.2.2.2.1 "key" [none, some "QUFB"] rfl rfl
    rw [h2]
    rfl
  · have h3 := h.2.2.2.2.2.2.1 "key" [] rfl rfl
    rw [h3]
    rfl

/-- Claim C5: for every sequence of stream increments, `streamJson` invokes
the progress callback once per (truthy) increment with the concatenation of
all increments received so far, and the final result parses the
fence-stripped concatenation of all increments — hence the final result is
the same for any chunk granularity with the same concatenation. -/
theorem streamJson_streaming {α : Type} (k contents : String)
    (transport : String → Except GeminiError (List String))
    (parse : String → Except GeminiError α) (chunks : List String)
    (ht : transport contents = .ok chunks) :
    ((streamJson (some k) contents transport parse).updates.length
        = (chunks.filter (fun t => !(t = ""))).length
      ∧ ∀ i, i < (streamJson (some k) contents transport parse).updates.length →
          (streamJson (some k) contents transport parse).updates.getD i ""
            = concatAll ((chunks.filter (fun t => !(t = ""))).take (i + 1)))
    ∧ (streamJson (some k) contents transport parse).result
        = parse (clean (concatAll chunks))
    ∧ ∀ (transport₂ : String → Except GeminiError (List String)) (chunks₂ : List String),
        transport₂ contents = .ok chunks₂ → concatAll chunks₂ = concatAll chunks →
        (streamJson (some k) contents transport₂ parse).result
          = (streamJson (some k) contents transport parse).result := by
  have hred := streamJson_some_ok k contents transport parse chunks ht
  refine ⟨⟨?_, ?_⟩, ?_, ?_⟩
  · rw [hred]
    exact accumulate_snd_length chunks ""
  · intro i hi
    rw [hred] at hi ⊢
    have := accumulate_snd_getD chunks "" i hi
    rw [this, strEmptyAppend]
  · rw [hred]
  · intro transport₂ chunks₂ ht₂ hcat
    have hred₂ := streamJson_some_ok k contents transport₂ parse chunks₂ ht₂
    rw [hred, hred₂, hcat]

/-- Claim C5 witness: a concrete two-increment stream with an interleaved
falsy chunk, and a regrouped stream with the same concatenation. -/
theorem streamJson_streaming_witness :
    (streamJson (some "key") "p" (fun _ => .ok ["ab", "", "c"])
        (fun s => .ok s)).updates.getD 0 "" = "ab"
    ∧ (streamJson (some "key") "p" (fun _ => .ok ["ab", "", "c"])
        (fun s => .ok s)).updates.getD 1 "" = "abc"
    ∧ (streamJson (some "key") "p" (fun _ => .ok ["ab", "", "c"])
        (fun s => .ok s)).updates.length = 2
    ∧ (streamJson (some "key") "p" (fun _ => .ok ["ab", "", "c"])
        (fun s => .ok s)).result = .ok (clean "abc")
    ∧ (streamJson (some "key") "p" (fun _ => .ok ["a", "bc"])
        (fun s => .ok s)).result
      = (streamJson (some "key") "p" (fun _ => .ok ["ab", "", "c"])
        (fun s => .ok s)).result := by
  have h := streamJson_streaming "key" "p" (fun _ => .ok ["ab", "", "c"])
    (fun s => Except.ok s) ["ab", "", "c"] rfl
  have hlen := h.1.1
  refine ⟨?_, ?_, ?_, ?_, ?_⟩
  · have h0 := h.1.2 0 (by rw [hlen]; decide)
    rw [h0]
    rfl
  · have h1 := h.1.2 1 (by rw [hlen]; decide)
    rw [h1]
    rfl
  · rw [hlen]
    rfl
  · have h2 := h.2.1
    rw [h2]
    rfl
  · exact h.2.2 (fun _ => .ok ["a", "bc"]) ["a", "bc"] rfl rfl

/-- Claim C7: the lead-roster stage accepts any successfully parsed leads
array as-is — whatever its length or category distribution — returning it
unchanged with no error. -/
theorem generateLeads_accepts_as_is (store : Option String) (k theme title summary : String)
    (exposition : Exposition)
    (transport : String → Except GeminiError (List String))
    (parse : String → Except GeminiError (Option (List Lead)))
    (chunks : List String) (leadsArr : List Lead)
    (hk : store = some k)
    (ht : transport (leadsPrompt title summary exposition) = .ok chunks)
    (hp : parse (clean (concatAll chunks)) = .ok (some leadsArr)) :
    (generateLeads store theme title summary exposition transport parse).result
      = .ok leadsArr := by
  subst hk
  unfold generateLeads
  rw [streamJson_some_ok k _ transport parse chunks ht]
  simp only [hp]
  rfl

/-- Claim C7 witness: a malformed distribution — 35 leads, all in one
category — is returned unchanged without an exception. -/
theorem generateLeads_accepts_as_is_witness :
    (generateLeads (some "key") "th" "T" "S" sampleExposition (fun _ => .ok ["x"])
        (fun _ => .ok (some (List.replicate 35
          (Lead.mk "id" "n" "d" Category.Connections none))))).result
      = .ok (List.replicate 35 (Lead.mk "id" "n" "d" Category.Connections none)) :=
  generateLeads_accepts_as_is (some "key") "key" "th" "T" "S" sampleExposition
    (fun _ => .ok ["x"])
    (fun _ => .ok (some (List.replicate 35 (Lead.mk "id" "n" "d" Category.Connections none))))
    ["x"] (List.replicate 35 (Lead.mk "id" "n" "d" Category.Connections none))
    rfl rfl rfl

/-- Characterization of `handleUpdateLead` when the id is found: every entry
with the updated id is replaced by the updated lead, whose details are
cleared exactly when name or description changed. -/
theorem handleUpdateLead_eq (leads : List Lead) (u ex : Lead)
    (hfind : leads.find? (fun l => l.id == u.id) = some ex) :
    handleUpdateLead leads u
      = leads.map (fun l => if l.id == u.id then
          (if ex.name ≠ u.name ∨ ex.description ≠ u.description then
            { u with details := none }
          else
            { u with details := ex.details }) else l) := by
  have hFid : (if ex.name ≠ u.name ∨ ex.description ≠ u.description then
      { u with details := none } else { u with details := ex.details } : Lead).id = u.id := by
    split <;> rfl
  simp only [handleUpdateLead, hfind]
  rw [hFid]

/-- Claim C4: updating a lead (same id) with a changed name or description
clears its details; updating with unchanged name and description preserves
the existing details unchanged. -/
theorem handleUpdateLead_details_invalidation (leads : List Lead) (u ex : Lead)
    (d : LeadDetails)
    (hfind : leads.find? (fun l => l.id == u.id) = some ex)
    (hdet : ex.details = some d) :
    (∀ l' ∈ handleUpdateLead leads u, l'.id = u.id →
      ((ex.name ≠ u.name ∨ ex.description ≠ u.description) → l'.details = none)
      ∧ (ex.name = u.name → ex.description = u.description → l'.details = some d))
    ∧ ∃ l' ∈ handleUpdateLead leads u, l'.id = u.id := by
  have heq := handleUpdateLead_eq leads u ex hfind
  constructor
  · intro l' hl' hid
    rw [heq] at hl'
    obtain ⟨a, ha, hfa⟩ := List.mem_map.mp hl'
    by_cases hc : (a.id == u.id) = true
    · rw [if_pos hc] at hfa
      constructor
      · intro hch
        rw [← hfa, if_pos hch]
      · intro hn hd2
        have hch : ¬ (ex.name ≠ u.name ∨ ex.description ≠ u.description) := by
          simp [hn, hd2]
        rw [← hfa, if_neg hch]
        exact hdet
    · rw [if_neg hc] at hfa
      exfalso
      apply hc
      rw [hfa, hid]
      exact beq_self_eq_true u.id
  · have hmem : ex ∈ leads := List.mem_of_find?_eq_some hfind
    have hpred : (ex.id == u.id) = true := by
      have hp := List.find?_some hfind
      simpa using hp
    rw [heq]
    refine ⟨_, List.mem_map_of_mem _ hmem, ?_⟩
    rw [if_pos hpred]
    split <;> rfl

/-- A renamed copy of the sample lead (same id, new name). -/
def renamedSampleLead : Lead :=
  ⟨"l1", "New Name", "A flooded mall of dead neon.", Category.Locations, some sampleDetails⟩

/-- Claim C4 witness: renaming the sample lead clears its details. -/
theorem handleUpdateLead_details_invalidation_witness :
    ([sampleLead].find? (fun l => l.id == renamedSampleLead.id) = some sampleLead)
    ∧ sampleLead.details = some sampleDetails
    ∧ ((∀ l' ∈ handleUpdateLead [sampleLead] renamedSampleLead,
          l'.id = renamedSampleLead.id →
          ((sampleLead.name ≠ renamedSampleLead.name
              ∨ sampleLead.description ≠ renamedSampleLead.description) → l'.details = none)
          ∧ (sampleLead.name = renamedSampleLead.name →
              sampleLead.description = renamedSampleLead.description →
              l'.details = some sampleDetails))
        ∧ ∃ l' ∈ handleUpdateLead [sampleLead] renamedSampleLead,
            l'.id = renamedSampleLead.id) :=
  ⟨by decide, rfl,
    handleUpdateLead_details_invalidation [sampleLead] renamedSampleLead sampleLead
      sampleDetails (by decide) rfl⟩

/-- Claim C3: regenerating one sensory field of a lead with existing details
replaces exactly the targeted field with the newly generated value — the
other three sensory fields, the expanded description and the image are
unchanged — and the new value's prompt embeds the other three sensory
entries (and only those) as context. -/
theorem regenerateSensoryField_isolation (store : Option String) (k : String)
    (sT dT : String → Except GeminiError (List String))
    (sP dP : String → Except GeminiError String)
    (iT : String → Except GeminiError (List (Option String)))
    (exposition : Exposition) (lead : Lead) (d : LeadDetails) (f : SensoryField)
    (newValue : String)
    (hk : store = some k)
    (hdet : lead.details = some d)
    (hregen : regenerateSensoryField store lead f d.sensory exposition sT sP
      = .ok newValue) :
    handleRegenerateDossierField store sT sP dT dP iT exposition lead .sensory (some f)
      = some { d with sensory := setSensory d.sensory f newValue }
    ∧ ({ d with sensory := setSensory d.sensory f newValue } : LeadDetails).expandedDescription
        = d.expandedDescription
    ∧ ({ d with sensory := setSensory d.sensory f newValue } : LeadDetails).imageUrl
        = d.imageUrl
    ∧ getSensory (setSensory d.sensory f newValue) f = newValue
    ∧ (∀ g, g ≠ f → getSensory (setSensory d.sensory f newValue) g = getSensory d.sensory g)
    ∧ (∃ p q, sensoryRegenPrompt lead f d.sensory exposition
        = p ++ otherFields f d.sensory ++ q)
    ∧ (f = .sight → otherFields f d.sensory
        = joinNewline ["sound: " ++ d.sensory.sound, "smell: " ++ d.sensory.smell,
            "vibe: " ++ d.sensory.vibe])
    ∧ (f = .sound → otherFields f d.sensory
        = joinNewline ["sight: " ++ d.sensory.sight, "smell: " ++ d.sensory.smell,
            "vibe: " ++ d.sensory.vibe])
    ∧ (f = .smell → otherFields f d.sensory
        = joinNewline ["sight: " ++ d.sensory.sight, "sound: " ++ d.sensory.sound,
            "vibe: " ++ d.sensory.vibe])
    ∧ (f = .vibe → otherFields f d.sensory
        = joinNewline ["sight: " ++ d.sensory.sight, "sound: " ++ d.sensory.sound,
            "smell: " ++ d.sensory.smell]) := by
  refine ⟨?_, rfl, rfl, ?_, ?_, ?_, ?_, ?_, ?_, ?_⟩
  · simp only [handleRegenerateDossierField, hdet, hregen]
  · cases f <;> rfl
  · intro g hg
    cases f <;> cases g <;> first | rfl | exact absurd rfl hg
  · refine ⟨"Context: Technoir lead \"" ++ lead.name ++ "\" (" ++ categoryName lead.category
        ++ ").\n    Description: " ++ lead.description
        ++ "\n\n    Exposition Context:\n    - Tech: " ++ exposition.technology
        ++ "\n    - Society: " ++ exposition.society
        ++ "\n    - Environment: " ++ exposition.environment
        ++ "\n\n    Existing sensory data:\n    ",
      "\n\n    Task: Generate a new " ++ sensoryFieldName f
        ++ " sensory input that complements the existing sensory data and fits the exposition context. Keep it concise and evocative.",
      ?_⟩
    simp only [sensoryRegenPrompt, strAppendAssoc]
  · intro hf
    subst hf
    rfl
  · intro hf
    subst hf
    rfl
  · intro hf
    subst hf
    rfl
  · intro hf
    subst hf
    rfl

/-- Claim C3 witness: regenerating `smell` on the sample details
{A, B, C, D, E, F}. -/
theorem regenerateSensoryField_isolation_witness :
    sampleLead.details = some sampleDetails
    ∧ regenerateSensoryField (some "key") sampleLead .smell sampleDetails.sensory
        sampleExposition (fun _ => .ok ["x"]) (fun _ => .ok "wet ozone")
      = .ok "wet ozone"
    ∧ (handleRegenerateDossierField (some "key") (fun _ => .ok ["x"])
          (fun _ => .ok "wet ozone") (fun _ => .ok []) (fun _ => .ok "")
          (fun _ => .ok []) sampleExposition sampleLead .sensory (some .smell)
        = some { sampleDetails with
            sensory := setSensory sampleDetails.sensory .smell "wet ozone" })
      ∧ ({ sampleDetails with
            sensory := setSensory sampleDetails.sensory .smell "wet ozone" }
          : LeadDetails).expandedDescription = sampleDetails.expandedDescription
      ∧ ({ sampleDetails with
            sensory := setSensory sampleDetails.sensory .smell "wet ozone" }
          : LeadDetails).imageUrl = sampleDetails.imageUrl
      ∧ getSensory (setSensory sampleDetails.sensory .smell "wet ozone") .smell = "wet ozone"
      ∧ (∀ g, g ≠ SensoryField.smell →
          getSensory (setSensory sampleDetails.sensory .smell "wet ozone") g
            = getSensory sampleDetails.sensory g)
      ∧ (∃ p q, sensoryRegenPrompt sampleLead .smell sampleDetails.sensory sampleExposition
          = p ++ otherFields .smell sampleDetails.sensory ++ q)
      ∧ (SensoryField.smell = .sight → otherFields .smell sampleDetails.sensory
          = joinNewline ["sound: " ++ sampleDetails.sensory.sound,
              "smell: " ++ sampleDetails.sensory.smell,
              "vibe: " ++ sampleDetails.sensory.vibe])
      ∧ (SensoryField.smell = .sound → otherFields .smell sampleDetails.sensory
          = joinNewline ["sight: " ++ sampleDetails.sensory.sight,
              "smell: " ++ sampleDetails.sensory.smell,
              "vibe: " ++ sampleDetails.sensory.vibe])
      ∧ (SensoryField.smell = .smell → otherFields .smell sampleDetails.sensory
          = joinNewline ["sight: " ++ sampleDetails.sensory.sight,
              "sound: " ++ sampleDetails.sensory.sound,
              "vibe: " ++ sampleDetails.sensory.vibe])
      ∧ (SensoryField.smell = .vibe → otherFields .smell sampleDetails.sensory
          = joinNewline ["sight: " ++ sampleDetails.sensory.sight,
              "sound: " ++ sampleDetails.sensory.sound,
              "smell: " ++ sampleDetails.sensory.smell]) :=
  ⟨rfl, rfl,
    regenerateSensoryField_isolation (some "key") "key" (fun _ => .ok ["x"])
      (fun _ => .ok []) (fun _ => .ok "wet ozone") (fun _ => .ok "")
      (fun _ => .ok []) sampleExposition sampleLead sampleDetails .smell "wet ozone"
      rfl rfl rfl⟩

/-- Claim C10: if regenerating a lead's image yields no image, the lead's
details are entirely unchanged — in particular the previous `imageUrl` is
neither cleared nor overwritten. -/
theorem handleRegenerateDossierField_image_keep (store : Option String)
    (sT dT : String → Except GeminiError (List String))
    (sP dP : String → Except GeminiError String)
    (iT : String → Except GeminiError (List (Option String)))
    (exposition : Exposition) (lead : Lead) (d : LeadDetails)
    (hdet : lead.details = some d)
    (hnone : regenerateLeadImage store lead d.sensory d.expandedDescription exposition iT
      = .ok none) :
    handleRegenerateDossierField store sT sP dT dP iT exposition lead .image none = some d
    ∧ ∀ d', handleRegenerateDossierField store sT sP dT dP iT exposition lead .image none
        = some d' →
        d'.imageUrl = d.imageUrl ∧ d'.sensory = d.sensory
        ∧ d'.expandedDescription = d.expandedDescription := by
  have h1 : handleRegenerateDossierField store sT sP dT dP iT exposition lead .image none
      = some d := by
    simp only [handleRegenerateDossierField, hdet, hnone]
  refine ⟨h1, ?_⟩
  intro d' h'
  rw [h1] at h'
  have : d = d' := Option.some.inj h'
  subst this
  exact ⟨rfl, rfl, rfl⟩

/-- Claim C10 witness: an empty-parts image response on the sample lead,
whose details carry the prior image "F". -/
theorem handleRegenerateDossierField_image_keep_witness :
    sampleLead.details = some sampleDetails
    ∧ regenerateLeadImage (some "key") sampleLead sampleDetails.sensory
        sampleDetails.expandedDescription sampleExposition (fun _ => .ok [])
      = .ok none
    ∧ handleRegenerateDossierField (some "key") (fun _ => .ok ["x"]) (fun _ => .ok "v")
        (fun _ => .ok []) (fun _ => .ok "") (fun _ => .ok []) sampleExposition
        sampleLead .image none = some sampleDetails
    ∧ ∀ d', handleRegenerateDossierField (some "key") (fun _ => .ok ["x"])
          (fun _ => .ok "v") (fun _ => .ok []) (fun _ => .ok "") (fun _ => .ok [])
          sampleExposition sampleLead .image none = some d' →
        d'.imageUrl = sampleDetails.imageUrl ∧ d'.sensory = sampleDetails.sensory
        ∧ d'.expandedDescription = sampleDetails.expandedDescription := by
  have h := handleRegenerateDossierField_image_keep (some "key") (fun _ => .ok ["x"])
    (fun _ => .ok []) (fun _ => .ok "v") (fun _ => .ok "") (fun _ => .ok [])
    sampleExposition sampleLead sampleDetails rfl rfl
  exact ⟨rfl, rfl, h.1, h.2⟩

/-! ### Detail-loop lemmas for Full-mode orchestration -/

theorem exceptBind_ok {α β : Type} (a : α) (f : α → Except GeminiError β) :
    (Except.ok a >>= f) = f a := rfl

theorem processLead_error (store : Option String) (title summary : String)
    (exposition : Exposition) (txT : String → Except GeminiError (List String))
    (txP : String → Except GeminiError TextDetails)
    (imT : String → Except GeminiError (List (Option String))) (lead : Lead)
    (e : GeminiError)
    (htx : generateLeadInspectionText store lead title summary exposition txT txP
      = .error e) :
    processLead store title summary exposition txT txP imT lead = lead := by
  unfold processLead
  rw [htx]

theorem processLead_fields (store : Option String) (title summary : String)
    (exposition : Exposition) (txT : String → Except GeminiError (List String))
    (txP : String → Except GeminiError TextDetails)
    (imT : String → Except GeminiError (List (Option String))) (lead : Lead) :
    (processLead store title summary exposition txT txP imT lead).id = lead.id
    ∧ (processLead store title summary exposition txT txP imT lead).name = lead.name
    ∧ (processLead store title summary exposition txT txP imT lead).description
        = lead.description
    ∧ (processLead store title summary exposition txT txP imT lead).category
        = lead.category := by
  cases htx : generateLeadInspectionText store lead title summary exposition txT txP with
  | error e =>
    rw [processLead_error store title summary exposition txT txP imT lead e htx]
    exact ⟨rfl, rfl, rfl, rfl⟩
  | ok td =>
    obtain ⟨u, hu⟩ := generateLeadInspectionImage_never_errors store lead title summary
      td.sensory.sight imT
    have heq : processLead store title summary exposition txT txP imT lead
        = { lead with details := some ⟨td.sensory, td.expandedDescription, u⟩ } := by
      unfold processLead
      simp only [htx, hu]
    rw [heq]
    exact ⟨rfl, rfl, rfl, rfl⟩

theorem processLead_ok (store : Option String) (title summary : String)
    (exposition : Exposition) (txT : String → Except GeminiError (List String))
    (txP : String → Except GeminiError TextDetails)
    (imT : String → Except GeminiError (List (Option String))) (lead : Lead)
    (td : TextDetails)
    (htx : generateLeadInspectionText store lead title summary exposition txT txP
      = .ok td) :
    ∃ dets, (processLead store title summary exposition txT txP imT lead).details
      = some dets := by
  obtain ⟨u, hu⟩ := generateLeadInspectionImage_never_errors store lead title summary
    td.sensory.sight imT
  have heq : processLead store title summary exposition txT txP imT lead
      = { lead with details := some ⟨td.sensory, td.expandedDescription, u⟩ } := by
    unfold processLead
    simp only [htx, hu]
  rw [heq]
  exact ⟨_, rfl⟩

theorem detailLoop_length (store : Option String) (title summary : String)
    (exposition : Exposition) (txT : Nat → String → Except GeminiError (List String))
    (txP : String → Except GeminiError TextDetails)
    (imT : Nat → String → Except GeminiError (List (Option String))) :
    ∀ (leads : List Lead) (i : Nat),
      (detailLoop store title summary exposition txT txP imT i leads).length
        = leads.length := by
  intro leads
  induction leads with
  | nil => intro i; rfl
  | cons lead rest ih =>
    intro i
    simp only [detailLoop, List.length_cons, ih (i + 1)]

theorem detailLoop_getD (store : Option String) (title summary : String)
    (exposition : Exposition) (txT : Nat → String → Except GeminiError (List String))
    (txP : String → Except GeminiError TextDetails)
    (imT : Nat → String → Except GeminiError (List (Option String))) :
    ∀ (leads : List Lead) (i j : Nat), j < leads.length →
      (detailLoop store title summary exposition txT txP imT i leads).getD j defaultLead
        = processLead store title summary exposition (txT (i + j)) txP (imT (i + j))
            (leads.getD j defaultLead) := by
  intro leads
  induction leads with
  | nil => intro i j h; simp at h
  | cons lead rest ih =>
    intro i j h
    cases j with
    | zero =>
      simp only [detailLoop, List.getD_cons_zero, Nat.add_zero]
    | succ jj =>
      simp only [detailLoop, List.getD_cons_succ]
      have hj : jj < rest.length := by simpa using h
      rw [ih (i + 1) jj hj, show i + 1 + jj = i + (jj + 1) from by omega]

theorem getD_mem_of_lt (l : List Lead) (i : Nat) (h : i < l.length) :
    l.getD i defaultLead ∈ l := by
  simp [List.getD_eq_getElem?_getD, List.getElem?_eq_getElem h]

/-- Claim C1: in Full-mode orchestration over a roster of N detail-less
leads, if the per-lead detail-text call fails at exactly one index k, the
run still succeeds and returns a Transmission with exactly N leads in
order, every lead keeping its original id, name, description and
category; lead k has no details and every other lead has details
populated. -/
theorem generateFullTransmission_containment
    (store : Option String) (k theme : String)
    (tsT exT ldT : String → Except GeminiError (List String))
    (tsP : String → Except GeminiError TitleSetting)
    (exP : String → Except GeminiError Exposition)
    (ldP : String → Except GeminiError (Option (List Lead)))
    (hdT : String → Except GeminiError (List (Option String)))
    (txT : Nat → String → Except GeminiError (List String))
    (txP : String → Except GeminiError TextDetails)
    (imT : Nat → String → Except GeminiError (List (Option String)))
    (idv : Nat) (createdAt : String)
    (ts : TitleSetting) (exposition : Exposition) (leads : List Lead) (kIdx : Nat)
    (hk : store = some k)
    (hts : (generateTitleAndSetting store theme tsT tsP).result = .ok ts)
    (hex : (generateExposition store theme ts.title ts.settingSummary exT exP).result
      = .ok exposition)
    (hld : (generateLeads store theme ts.title ts.settingSummary exposition ldT ldP).result
      = .ok leads)
    (hnodet : ∀ l ∈ leads, l.details = none)
    (hkIdx : kIdx < leads.length)
    (hfail : ∃ e, generateLeadInspectionText store (leads.getD kIdx defaultLead)
      ts.title ts.settingSummary exposition (txT kIdx) txP = .error e)
    (hok : ∀ i, i < leads.length → i ≠ kIdx →
      ∃ td, generateLeadInspectionText store (leads.getD i defaultLead)
        ts.title ts.settingSummary exposition (txT i) txP = .ok td) :
    ∃ t : Transmission,
      generateFullTransmission store theme tsT tsP exT exP ldT ldP hdT txT txP imT
          idv createdAt
        = .ok t
      ∧ t.leads.length = leads.length
      ∧ (∀ i, i < leads.length →
          (t.leads.getD i defaultLead).id = (leads.getD i defaultLead).id
          ∧ (t.leads.getD i defaultLead).name = (leads.getD i defaultLead).name
          ∧ (t.leads.getD i defaultLead).description = (leads.getD i defaultLead).description
          ∧ (t.leads.getD i defaultLead).category = (leads.getD i defaultLead).category)
      ∧ (t.leads.getD kIdx defaultLead).details = none
      ∧ (∀ i, i < leads.length → i ≠ kIdx →
          ((t.leads.getD i defaultLead).details).isSome = true) := by
  obtain ⟨hr, hhd⟩ := generateTransmissionHeader_never_errors store ts.title
    ts.settingSummary exposition hdT
  refine ⟨{ id := idv, createdAt := createdAt, title := ts.title,
            settingSummary := ts.settingSummary, exposition := exposition,
            headerImageUrl := hr,
            leads := detailLoop store ts.title ts.settingSummary exposition txT txP imT
              0 leads },
    ?_, ?_, ?_, ?_, ?_⟩
  · unfold generateFullTransmission
    rw [hts, exceptBind_ok, hex, exceptBind_ok, hld, exceptBind_ok, hhd, exceptBind_ok]
  · exact detailLoop_length store ts.title ts.settingSummary exposition txT txP imT leads 0
  · intro i hi
    have hget := detailLoop_getD store ts.title ts.settingSummary exposition txT txP imT
      leads 0 i hi
    dsimp only
    rw [hget, Nat.zero_add]
    exact processLead_fields store ts.title ts.settingSummary exposition (txT i) txP
      (imT i) (leads.getD i defaultLead)
  · have hget := detailLoop_getD store ts.title ts.settingSummary exposition txT txP imT
      leads 0 kIdx hkIdx
    dsimp only
    rw [hget, Nat.zero_add]
    obtain ⟨e, he⟩ := hfail
    rw [processLead_error store ts.title ts.settingSummary exposition (txT kIdx) txP
      (imT kIdx) (leads.getD kIdx defaultLead) e he]
    exact hnodet _ (getD_mem_of_lt leads kIdx hkIdx)
  · intro i hi hne
    have hget := detailLoop_getD store ts.title ts.settingSummary exposition txT txP imT
      leads 0 i hi
    dsimp only
    rw [hget, Nat.zero_add]
    obtain ⟨td, htd⟩ := hok i hi hne
    obtain ⟨dets, hdets⟩ := processLead_ok store ts.title ts.settingSummary exposition
      (txT i) txP (imT i) (leads.getD i defaultLead) td htd
    rw [hdets]
    rfl

/-! ### Claim C1 witness fixtures -/

def c1Leads : List Lead :=
  [⟨"a", "Na", "Da", Category.Connections, none⟩,
    ⟨"b", "Nb", "Db", Category.Events, none⟩,
    ⟨"c", "Nc", "Dc", Category.Locations, none⟩]

/-- Per-index detail-text transport, instrumented to fail exactly at
loop index 1. -/
def c1TxTransport : Nat → String → Except GeminiError (List String) :=
  fun i _ => if i = 1 then .error (.transportFailure "node 2 down") else .ok ["y"]

/-- Claim C1 witness: a three-lead roster with the detail-text call failing
at index 1 only. -/
theorem generateFullTransmission_containment_witness :
    ∃ t : Transmission,
      generateFullTransmission (some "key") "heist" (fun _ => .ok ["x"])
          (fun _ => .ok ⟨"T", "S"⟩) (fun _ => .ok ["x"]) (fun _ => .ok sampleExposition)
          (fun _ => .ok ["x"]) (fun _ => .ok (some c1Leads)) (fun _ => .ok [])
          c1TxTransport (fun _ => .ok ⟨sampleSensory, "ED"⟩) (fun _ _ => .ok [])
          7 "1/1/2026"
        = .ok t
      ∧ t.leads.length = c1Leads.length
      ∧ (∀ i, i < c1Leads.length →
          (t.leads.getD i defaultLead).id = (c1Leads.getD i defaultLead).id
          ∧ (t.leads.getD i defaultLead).name = (c1Leads.getD i defaultLead).name
          ∧ (t.leads.getD i defaultLead).description
              = (c1Leads.getD i defaultLead).description
          ∧ (t.leads.getD i defaultLead).category = (c1Leads.getD i defaultLead).category)
      ∧ (t.leads.getD 1 defaultLead).details = none
      ∧ (∀ i, i < c1Leads.length → i ≠ 1 →
          ((t.leads.getD i defaultLead).details).isSome = true) := by
  refine generateFullTransmission_containment (some "key") "key" "heist"
    (fun _ => .ok ["x"]) (fun _ => .ok ["x"]) (fun _ => .ok ["x"])
    (fun _ => .ok ⟨"T", "S"⟩) (fun _ => .ok sampleExposition)
    (fun _ => .ok (some c1Leads)) (fun _ => .ok []) c1TxTransport
    (fun _ => .ok ⟨sampleSensory, "ED"⟩) (fun _ _ => .ok []) 7 "1/1/2026"
    ⟨"T", "S"⟩ sampleExposition c1Leads 1 rfl rfl rfl rfl (by decide) (by decide)
    ⟨.transportFailure "node 2 down", rfl⟩ ?_
  intro i hi hne
  have hi3 : i < 3 := by simpa [c1Leads] using hi
  interval_cases i
  · exact ⟨⟨sampleSensory, "ED"⟩, rfl⟩
  · exact absurd rfl hne
  · exact ⟨⟨sampleSensory, "ED"⟩, rfl⟩
